import Mathlib

/-!
Verification of the Numble backend: the guess evaluator (game_logic.py),
the data model (models.py) and the room state machine
(connection_manager.py together with the websocket dispatch in server.py),
embedded shallowly as pure Lean functions.
-/

namespace Numble

/-! ### game_logic.py -/

/-- Embeds `validate_secret` from game_logic.py.  Python's
`number.isdigit()` is true when the string is non-empty and every
character is a decimal digit; `len(set(number))` is the number of
distinct characters, embedded as `number.toList.dedup.length`. -/
def validate_secret (number : String) : Bool :=
  if !(!number.toList.isEmpty && number.toList.all Char.isDigit) || number.length ≠ 4 then
    false
  else if number.toList.dedup.length ≠ 4 then
    false
  else
    true

/-- Embeds `validate_guess` from game_logic.py, acting on the
character lists `list(guess)` / `list(secret)`.  Elements are
`Option Char` so the `None` markers written by the first pass are
represented directly.  The first `for i in range(4)` loop threads
`(result, guess_list, secret_list)`; each iteration reads and writes
only index `i`, and the second loop only writes `result`. -/
def validate_guess_lists (guess secret : List Char) : List String :=
  let state0 : List String × List (Option Char) × List (Option Char) :=
    (List.replicate 4 "grey", guess.map some, secret.map some)
  let state1 := (List.range 4).foldl (fun st i =>
    match st.2.1.getD i none, st.2.2.getD i none with
    | some g, some s =>
        if g = s then (st.1.set i "green", st.2.1.set i none, st.2.2.set i none)
        else st
    | _, _ => st) state0
  (List.range 4).foldl (fun result i =>
    match state1.2.1.getD i none with
    | none => result
    | some g => if some g ∈ state1.2.2 then result.set i "yellow" else result) state1.1

/-- Embeds `validate_guess(guess, secret)` on strings: the source
converts both strings to lists of characters first. -/
def validate_guess (guess secret : String) : List String :=
  validate_guess_lists guess.toList secret.toList

/-! ### models.py -/

/-- Embeds `GuessResult` from models.py. -/
structure GuessResult where
  guess : String
  feedback : List String
deriving Repr, DecidableEq

/-- Embeds `Player` from models.py, with the same defaults. -/
structure Player where
  id : String
  name : Option String := none
  is_host : Bool := false
  connected : Bool := true
  is_ready : Bool := false
  secret_number : Option String := none
  guesses : List GuessResult := []
  has_won : Bool := false
deriving Repr, DecidableEq

/-- Embeds the `Literal["waiting", "setup", "playing", "finished"]`
status type of `GameState`. -/
inductive Status where
  | waiting
  | setup
  | playing
  | finished
deriving Repr, DecidableEq

/-- Embeds `GameState` from models.py. -/
structure GameState where
  status : Status := .waiting
  winner_id : Option String := none
  start_time : Option String := none
  current_turn : Option String := none
deriving Repr, DecidableEq

/-- Embeds `Room` from models.py. -/
structure Room where
  id : String
  player1 : Player
  player2 : Option Player := none
  game_state : GameState
deriving Repr, DecidableEq

/-! ### Outbound events

The JSON payloads sent by connection_manager.py / server.py, one
constructor per `"type"` value, carrying the fields the payload has
(a field absent from a given payload is `none`). -/

inductive Event where
  | joined_room (room_id : String)
  | player_joined (room_id : String)
  | player_ready (player_id : String) (name : String)
  | game_started
  | guess_made (player_id : String) (guess : String) (feedback : List String) (attempt : Nat)
  | game_over (winner_id : Option String) (winner_name : Option String)
      (reason : Option String) (message : Option String)
      (p1_secret : Option String) (p2_secret : Option String)
  | player_disconnected (player_id : String)
  | rematch_started
  | error (message : String)
deriving Repr, DecidableEq

/-- A delivery: `broadcast_to_room` versus `send_personal_message`
to a given client. -/
inductive Msg where
  | broadcast (e : Event)
  | personal (client_id : String) (e : Event)
deriving Repr, DecidableEq

/-- The `p2_secret` field put into `game_over` payloads:
`room.player2.secret_number` (player2 is present whenever these
payloads are built). -/
def p2_secret (room : Room) : Option String :=
  match room.player2 with
  | some p => p.secret_number
  | none => none

/-! ### connection_manager.py

Each action is embedded as a pure function from the room (or, where the
action may be issued against a missing room, from `Option Room`) to the
updated room plus the list of deliveries it performs, in order.
Persistence (`save_room`) and the in-memory registry are external
collaborators; a Python method mutating `room` in place corresponds to
returning the updated `Room`. -/

/-- Embeds `Player(id=client_id, is_host=...)` as constructed by
`create_room` and `join_room`: every other field takes its model
default. -/
def Player.fresh (id : String) (is_host : Bool) : Player :=
  { id := id, is_host := is_host }

/-- Embeds `create_room`: the fresh room stored in the registry.  The
6-character upper-cased code derived from `uuid.uuid4()` is taken as a
parameter. -/
def create_room (client_id room_id : String) : Room :=
  { id := room_id
    player1 := Player.fresh client_id true
    game_state := { status := .waiting } }

/-- Embeds the body of `join_room` once the room has been found:
returns the updated room, the boolean result, and the deliveries. -/
def join_room_state (client_id : String) (room : Room) : Room × Bool × List Msg :=
  if room.player2.isSome then
    (room, false, [])
  else if room.player1.id = client_id then
    (room, true, [])
  else
    let room' : Room :=
      { room with
        player2 := some (Player.fresh client_id false)
        game_state := { room.game_state with status := .setup } }
    (room', true, [.broadcast (.player_joined room.id)])

/-- Embeds `join_room`, including the `get_room` miss returning
`False`. -/
def join_room (client_id : String) (room? : Option Room) :
    Option Room × Bool × List Msg :=
  match room? with
  | none => (none, false, [])
  | some room =>
      let res := join_room_state client_id room
      (some res.1, res.2.1, res.2.2)

/-- Embeds the `action == "join_room"` branch of `websocket_endpoint`
in server.py: on success the caller gets a personal `joined_room`
acknowledgement, otherwise a personal `error` event. -/
def websocket_join_room (client_id : String) (room? : Option Room) :
    Option Room × List Msg :=
  let res := join_room client_id room?
  if res.2.1 then
    (res.1, res.2.2 ++ [.personal client_id (.joined_room (room?.map Room.id |>.getD ""))])
  else
    (res.1, res.2.2 ++ [.personal client_id (.error "Room full or invalid")])

/-- Embeds `set_player_setup` once the room has been found.  The name
check `not name or len(name.strip()) == 0` holds exactly when every
character of the name is whitespace (including the empty name), which
is how it is embedded here. -/
def set_player_setup (client_id : String) (room : Room) (name secret : String) :
    Room × List Msg :=
  if validate_secret secret = false then
    (room, [.personal client_id (.error "Invalid secret number")])
  else if name.toList.all Char.isWhitespace then
    (room, [.personal client_id (.error "Name is required")])
  else
    let room' : Room :=
      if room.player1.id = client_id then
        { room with
          player1 :=
            { room.player1 with
              name := some name, secret_number := some secret, is_ready := true } }
      else
        match room.player2 with
        | some p2 =>
            if p2.id = client_id then
              { room with
                player2 :=
                  some ({ p2 with
                          name := some name, secret_number := some secret, is_ready := true }) }
            else room
        | none => room
    (room', [.broadcast (.player_ready client_id name)])

/-- Embeds `start_game` once the room has been found; `now` stands for
`datetime.now(timezone.utc).isoformat()`. -/
def start_game (client_id : String) (room : Room) (now : String) : Room × List Msg :=
  if room.player1.id ≠ client_id then
    (room, [])
  else
    match room.player2 with
    | none => (room, [])
    | some p2 =>
        if room.player1.is_ready && p2.is_ready then
          ({ room with
             game_state :=
               { room.game_state with status := .playing, start_time := some now } },
           [.broadcast .game_started])
        else (room, [])

/-- Embeds `player = room.player1 if room.player1.id == client_id else
room.player2` in `submit_guess`. -/
def caller_of (client_id : String) (room : Room) : Option Player :=
  if room.player1.id = client_id then some room.player1 else room.player2

/-- Embeds `opponent = room.player2 if room.player1.id == client_id
else room.player1` in `submit_guess`. -/
def opponent_of (client_id : String) (room : Room) : Option Player :=
  if room.player1.id = client_id then room.player2 else some room.player1

/-- Writing the (Python-mutated) caller object back into the room: the
caller aliases `room.player1` exactly when `room.player1.id ==
client_id`, and `room.player2` otherwise. -/
def set_caller (client_id : String) (room : Room) (p : Player) : Room :=
  if room.player1.id = client_id then { room with player1 := p }
  else { room with player2 := some p }

/-- Embeds `submit_guess` once the room has been found.  When the
opponent's secret is unset the source would raise inside
`validate_guess` (list(None)) before mutating anything; that branch is
embedded as a no-op and is unreachable for rooms that reached
`playing` through the state machine. -/
def submit_guess (client_id : String) (room : Room) (guess : String) :
    Room × List Msg :=
  if room.game_state.status ≠ .playing then (room, [])
  else
    match caller_of client_id room, opponent_of client_id room with
    | some player, some opponent =>
        if 6 ≤ player.guesses.length then (room, [])
        else if validate_secret guess = false then
          (room, [.personal client_id (.error "Invalid guess")])
        else
          match opponent.secret_number with
          | none => (room, [])
          | some sec =>
              let feedback := validate_guess guess sec
              let player' : Player :=
                { player with guesses := player.guesses ++ [⟨guess, feedback⟩] }
              if guess = sec then
                let player'' : Player := { player' with has_won := true }
                let room' := set_caller client_id room player''
                let room'' : Room :=
                  { room' with
                    game_state :=
                      { room'.game_state with
                        winner_id := some client_id, status := .finished } }
                (room'',
                 [.broadcast (.guess_made client_id guess feedback player''.guesses.length),
                  .broadcast (.game_over (some client_id) player''.name none none
                    room''.player1.secret_number (p2_secret room''))])
              else if 6 ≤ player'.guesses.length ∧ 6 ≤ opponent.guesses.length ∧
                  opponent.has_won = false then
                let room' := set_caller client_id room player'
                let room'' : Room :=
                  { room' with
                    game_state := { room'.game_state with status := .finished } }
                (room'',
                 [.broadcast (.guess_made client_id guess feedback player'.guesses.length),
                  .broadcast (.game_over none none none none
                    room''.player1.secret_number (p2_secret room''))])
              else
                let room' := set_caller client_id room player'
                (room',
                 [.broadcast (.guess_made client_id guess feedback player'.guesses.length)])
    | _, _ => (room, [])

/-- Embeds `rematch` once the room has been found.  The source resets
`room.player1` first and only then dereferences `room.player2`; when
slot 2 is empty that dereference raises `AttributeError`, embedded as
`Except.error` carrying the partially mutated in-memory room (status,
winner and timestamp untouched, nothing broadcast). -/
def rematch (room : Room) : Except Room (Room × List Msg) :=
  let p1 : Player :=
    { room.player1 with secret_number := none, guesses := [], is_ready := false, has_won := false }
  match room.player2 with
  | none => .error { room with player1 := p1 }
  | some p2 =>
      let p2' : Player :=
        { p2 with secret_number := none, guesses := [], is_ready := false, has_won := false }
      let room' : Room :=
        { room with
          player1 := p1
          player2 := some p2'
          game_state :=
            { room.game_state with
              status := .setup, winner_id := none, start_time := none } }
      .ok (room', [.broadcast .rematch_started])

/-- Embeds the per-room part of `disconnect`: the body of the
`for room_id, room in self.rooms.items()` loop for one room. -/
def disconnect_room (client_id : String) (room : Room) : Room × List Msg :=
  if room.player1.id = client_id then
    let room' : Room := { room with player1 := { room.player1 with connected := false } }
    let player_name := room.player1.name.getD "Player 1"
    if room.game_state.status = .playing then
      match room'.player2 with
      | some opp =>
          if opp.connected then
            let room'' : Room :=
              { room' with
                game_state :=
                  { room'.game_state with status := .finished, winner_id := some opp.id } }
            (room'',
             [.broadcast (.game_over (some opp.id) none (some "opponent_disconnected")
                (some (player_name ++ " disconnected. You win!"))
                room''.player1.secret_number (p2_secret room''))])
          else (room', [])
      | none => (room', [])
    else
      (room', [.broadcast (.player_disconnected client_id)])
  else
    match room.player2 with
    | some p2 =>
        if p2.id = client_id then
          let room' : Room := { room with player2 := some ({ p2 with connected := false }) }
          let player_name := p2.name.getD "Player 2"
          if room.game_state.status = .playing then
            if room.player1.connected then
              let room'' : Room :=
                { room' with
                  game_state :=
                    { room'.game_state with
                      status := .finished, winner_id := some room.player1.id } }
              (room'',
               [.broadcast (.game_over (some room.player1.id) none (some "opponent_disconnected")
                  (some (player_name ++ " disconnected. You win!"))
                  room''.player1.secret_number (p2_secret room''))])
            else (room', [])
          else
            (room', [.broadcast (.player_disconnected client_id)])
        else (room, [])
    | none => (room, [])

/-! ### Room-level transition system

The actions that can touch an existing room, and the room they leave
in the in-memory registry (for `rematch` on a slot-2-less room this is
the partially mutated room left behind by the raised exception). -/

inductive Action where
  | join (client_id : String)
  | set_setup (client_id name secret : String)
  | start (client_id now : String)
  | guess (client_id g : String)
  | disc (client_id : String)
  | redo
deriving Repr, DecidableEq

/-- The room left in the registry after an action. -/
def applyAction (a : Action) (room : Room) : Room :=
  match a with
  | .join c => (join_room_state c room).1
  | .set_setup c n s => (set_player_setup c room n s).1
  | .start c now => (start_game c room now).1
  | .guess c g => (submit_guess c room g).1
  | .disc c => (disconnect_room c room).1
  | .redo =>
      match rematch room with
      | .ok res => res.1
      | .error r => r

/-- Rooms reachable through the state machine, starting from
`create_room`. -/
inductive Reachable : Room → Prop where
  | created (client_id room_id : String) : Reachable (create_room client_id room_id)
  | step (a : Action) {r : Room} : Reachable r → Reachable (applyAction a r)

/-- The order `waiting < setup < playing < finished` on statuses. -/
def statusRank : Status → Nat
  | .waiting => 0
  | .setup => 1
  | .playing => 2
  | .finished => 3

/-! ### Invariant, action discriminators and concrete rooms -/

/-- The state-machine invariant: guess histories are bounded by 6, and
a room is `waiting` exactly when slot 2 is still empty. -/
def Inv (r : Room) : Prop :=
  r.player1.guesses.length ≤ 6 ∧
  (∀ p, r.player2 = some p → p.guesses.length ≤ 6) ∧
  (r.player2 = none ↔ r.game_state.status = .waiting)

def Action.isStart : Action → Bool
  | .start _ _ => true
  | _ => false

def Action.isRedo : Action → Bool
  | .redo => true
  | _ => false

/-- A reachable room in `playing` status. -/
def roomC2 : Room :=
  applyAction (.start "A" "t0")
    (applyAction (.set_setup "B" "Bob" "5678")
      (applyAction (.set_setup "A" "Alice" "1234")
        (applyAction (.join "B") (create_room "A" "R"))))

/-- Embeds the `opponent` resolution in `disconnect`: `room.player2`
when slot 1 disconnects, `room.player1` when slot 2 does. -/
def disc_opponent (client_id : String) (room : Room) : Option Player :=
  if room.player1.id = client_id then room.player2 else some room.player1

/-- A playing two-player room used by the C3 witness. -/
def roomC3 : Room :=
  { id := "R3"
    player1 := { id := "A", secret_number := some "1234" }
    player2 := some { id := "B", secret_number := some "5678" }
    game_state := { status := .playing } }

/-- A playing two-player room used by the C4 witness. -/
def roomC4 : Room :=
  { id := "R4"
    player1 := { id := "A", name := some "Alice", secret_number := some "1234" }
    player2 := some { id := "B", name := some "Bob", secret_number := some "5678" }
    game_state := { status := .playing } }

/-- A playing room where the caller has 5 guesses and the opponent 6,
used by the C6 witness. -/
def roomC6 : Room :=
  { id := "R6"
    player1 := { id := "A", secret_number := some "1234",
                 guesses := List.replicate 5 ⟨"0000", []⟩ }
    player2 := some { id := "B", secret_number := some "5678",
                      guesses := List.replicate 6 ⟨"0000", []⟩ }
    game_state := { status := .playing } }

/-- A waiting room whose slot 2 is empty, used for C7. -/
def roomC7 : Room := create_room "HOST" "R7"

/-- A finished two-player room used by the C8 witness. -/
def roomC8 : Room :=
  { id := "R8"
    player1 := { id := "A", name := some "Alice", is_ready := true,
                 secret_number := some "1234", has_won := true,
                 guesses := [⟨"5678", ["green", "green", "green", "green"]⟩] }
    player2 := some { id := "B", name := some "Bob", is_ready := true,
                      secret_number := some "5678" }
    game_state := { status := .finished, winner_id := some "A" } }

/-- The room `roomC8` after a successful rematch reset. -/
def roomC8reset : Room :=
  { id := "R8"
    player1 := { id := "A", name := some "Alice" }
    player2 := some { id := "B", name := some "Bob" }
    game_state := { status := .setup } }

/-- A setup-phase room used by the C9 witness. -/
def roomC9 : Room :=
  { id := "R9"
    player1 := { id := "A" }
    player2 := some { id := "B" }
    game_state := { status := .setup } }

/-- A playing two-player room used by the C10 witness; `"Z"` matches
neither slot. -/
def roomC10 : Room :=
  { id := "RX"
    player1 := { id := "A", secret_number := some "1234" }
    player2 := some { id := "B", secret_number := some "5678" }
    game_state := { status := .playing } }

/-! ### General lemmas about the guess evaluator -/

lemma exists_four {α : Type _} (l : List α) (h : l.length = 4) :
    ∃ a b c d, l = [a, b, c, d] := by
  obtain - | ⟨a, - | ⟨b, - | ⟨c, - | ⟨d, - | ⟨e, t⟩⟩⟩⟩⟩ := l <;> simp_all

lemma length_filter_mem_eq_card_inter (gl sl : List Char) (h : gl.Nodup) :
    (gl.filter (fun c => c ∈ sl)).length = (gl.toFinset ∩ sl.toFinset).card := by
  classical
  rw [← List.toFinset_card_of_nodup (h.filter _)]
  congr 1
  ext c
  simp [List.mem_toFinset, List.mem_filter, Finset.mem_inter]

set_option maxHeartbeats 2000000 in
/-- Closed form of the two passes of `validate_guess` on
distinct-digit guesses: slot `i` is green when `guess[i] = secret[i]`,
else yellow when `guess[i]` occurs anywhere in the secret, else grey.
Distinctness of the guess characters is what makes the second pass's
membership test in the green-masked secret agree with plain membership
in the secret. -/
lemma validate_guess_lists_eq (g0 g1 g2 g3 s0 s1 s2 s3 : Char)
    (hnd : List.Nodup [g0, g1, g2, g3]) :
    validate_guess_lists [g0, g1, g2, g3] [s0, s1, s2, s3] =
      [if g0 = s0 then "green" else if g0 ∈ [s0, s1, s2, s3] then "yellow" else "grey",
       if g1 = s1 then "green" else if g1 ∈ [s0, s1, s2, s3] then "yellow" else "grey",
       if g2 = s2 then "green" else if g2 ∈ [s0, s1, s2, s3] then "yellow" else "grey",
       if g3 = s3 then "green" else if g3 ∈ [s0, s1, s2, s3] then "yellow" else "grey"] := by
  simp only [List.nodup_cons, List.mem_cons, List.mem_singleton, not_or, List.nodup_nil,
    and_true, List.not_mem_nil] at hnd
  obtain ⟨⟨h01, h02, h03⟩, ⟨h12, h13⟩, h23, -⟩ := hnd
  by_cases e0 : g0 = s0 <;> by_cases e1 : g1 = s1 <;> by_cases e2 : g2 = s2 <;>
    by_cases e3 : g3 = s3 <;>
    simp_all [validate_guess_lists, List.range_succ] <;>
    split_ifs <;> simp_all <;> cc

lemma slot_iffs (g s : Char) (sec : List Char) (hs : s ∈ sec) :
    ((if g = s then "green" else if g ∈ sec then "yellow" else "grey") = "green" ↔ g = s) ∧
    ((if g = s then "green" else if g ∈ sec then "yellow" else "grey") = "yellow" ↔
      g ≠ s ∧ g ∈ sec) ∧
    ((if g = s then "green" else if g ∈ sec then "yellow" else "grey") = "grey" ↔
      g ≠ s ∧ g ∉ sec) := by
  split_ifs with h1 h2 <;> refine ⟨?_, ?_, ?_⟩ <;> simp_all

set_option maxHeartbeats 4000000 in
lemma counts_lemma (g0 g1 g2 g3 s0 s1 s2 s3 : Char) :
    ([if g0 = s0 then "green" else if g0 ∈ [s0, s1, s2, s3] then "yellow" else "grey",
      if g1 = s1 then "green" else if g1 ∈ [s0, s1, s2, s3] then "yellow" else "grey",
      if g2 = s2 then "green" else if g2 ∈ [s0, s1, s2, s3] then "yellow" else "grey",
      if g3 = s3 then "green" else if g3 ∈ [s0, s1, s2, s3] then "yellow" else "grey"].count
        "green" =
      ((List.range 4).filter (fun i =>
        [g0, g1, g2, g3].getD i default = [s0, s1, s2, s3].getD i default)).length) ∧
    ([if g0 = s0 then "green" else if g0 ∈ [s0, s1, s2, s3] then "yellow" else "grey",
      if g1 = s1 then "green" else if g1 ∈ [s0, s1, s2, s3] then "yellow" else "grey",
      if g2 = s2 then "green" else if g2 ∈ [s0, s1, s2, s3] then "yellow" else "grey",
      if g3 = s3 then "green" else if g3 ∈ [s0, s1, s2, s3] then "yellow" else "grey"].count
        "green" +
     [if g0 = s0 then "green" else if g0 ∈ [s0, s1, s2, s3] then "yellow" else "grey",
      if g1 = s1 then "green" else if g1 ∈ [s0, s1, s2, s3] then "yellow" else "grey",
      if g2 = s2 then "green" else if g2 ∈ [s0, s1, s2, s3] then "yellow" else "grey",
      if g3 = s3 then "green" else if g3 ∈ [s0, s1, s2, s3] then "yellow" else "grey"].count
        "yellow" =
      ([g0, g1, g2, g3].filter (fun c => c ∈ [s0, s1, s2, s3])).length) := by
  by_cases e0 : g0 = s0 <;> by_cases e1 : g1 = s1 <;> by_cases e2 : g2 = s2 <;>
    by_cases e3 : g3 = s3 <;>
    by_cases m0 : g0 ∈ [s0, s1, s2, s3] <;> by_cases m1 : g1 ∈ [s0, s1, s2, s3] <;>
    by_cases m2 : g2 ∈ [s0, s1, s2, s3] <;> by_cases m3 : g3 ∈ [s0, s1, s2, s3] <;>
    simp_all [List.count_cons, List.range_succ, List.filter_cons, List.mem_cons,
      decide_eq_true_eq]

/-! ### Claim theorems -/

/-- Claim C1: for 4-character guesses and secrets of pairwise-distinct
decimal digits, `validate_guess` marks slot `i` green iff
`guess[i] = secret[i]`, yellow iff `guess[i] ≠ secret[i]` but `guess[i]`
occurs in the secret, grey otherwise; the green count equals the number
of matching positions and the green-plus-yellow count equals the size
of the set intersection of the digits. -/
theorem C1_evaluator_feedback
    (guess secret : String)
    (hgl : guess.length = 4) (hsl : secret.length = 4)
    (hgdig : ∀ c ∈ guess.toList, c.isDigit = true)
    (hsdig : ∀ c ∈ secret.toList, c.isDigit = true)
    (hgnd : guess.toList.Nodup) (hsnd : secret.toList.Nodup) :
    (∀ i, i < 4 →
      (((validate_guess guess secret).getD i "" = "green") ↔
        guess.toList.getD i default = secret.toList.getD i default) ∧
      (((validate_guess guess secret).getD i "" = "yellow") ↔
        guess.toList.getD i default ≠ secret.toList.getD i default ∧
          guess.toList.getD i default ∈ secret.toList) ∧
      (((validate_guess guess secret).getD i "" = "grey") ↔
        guess.toList.getD i default ≠ secret.toList.getD i default ∧
          guess.toList.getD i default ∉ secret.toList)) ∧
    (validate_guess guess secret).count "green" =
      ((List.range 4).filter (fun i =>
        guess.toList.getD i default = secret.toList.getD i default)).length ∧
    (validate_guess guess secret).count "green" + (validate_guess guess secret).count "yellow" =
      (guess.toList.toFinset ∩ secret.toList.toFinset).card := by
  obtain ⟨g0, g1, g2, g3, hg⟩ := exists_four guess.toList (by simpa using hgl)
  obtain ⟨s0, s1, s2, s3, hs⟩ := exists_four secret.toList (by simpa using hsl)
  have hnd4 : List.Nodup [g0, g1, g2, g3] := hg ▸ hgnd
  have hvg : validate_guess guess secret =
      [if g0 = s0 then "green" else if g0 ∈ [s0, s1, s2, s3] then "yellow" else "grey",
       if g1 = s1 then "green" else if g1 ∈ [s0, s1, s2, s3] then "yellow" else "grey",
       if g2 = s2 then "green" else if g2 ∈ [s0, s1, s2, s3] then "yellow" else "grey",
       if g3 = s3 then "green" else if g3 ∈ [s0, s1, s2, s3] then "yellow" else "grey"] := by
    rw [validate_guess, hg, hs]
    exact validate_guess_lists_eq g0 g1 g2 g3 s0 s1 s2 s3 hnd4
  refine ⟨?_, ?_, ?_⟩
  · intro i hi
    interval_cases i <;>
      simp only [hvg, hg, hs, List.getD_cons_zero, List.getD_cons_succ] <;>
      exact slot_iffs _ _ _ (by simp)
  · rw [hvg, hg, hs]
    exact (counts_lemma g0 g1 g2 g3 s0 s1 s2 s3).1
  · rw [hvg, hg, hs]
    rw [(counts_lemma g0 g1 g2 g3 s0 s1 s2 s3).2]
    exact length_filter_mem_eq_card_inter _ _ hnd4

/-- Witness for C1 at guess `"1234"`, secret `"1325"`. -/
theorem C1_evaluator_feedback_witness :
    (validate_guess "1234" "1325").count "green" +
        (validate_guess "1234" "1325").count "yellow" =
      (("1234" : String).toList.toFinset ∩ ("1325" : String).toList.toFinset).card :=
  (C1_evaluator_feedback "1234" "1325" (by decide) (by decide) (by decide) (by decide)
    (by decide) (by decide)).2.2

/-! ### State-machine lemmas and remaining claim theorems -/

lemma inv_create (c i : String) : Inv (create_room c i) := by
  simp [Inv, create_room, Player.fresh]

lemma inv_join (c : String) (r : Room) (h : Inv r) : Inv (join_room_state c r).1 := by
  obtain ⟨h1, h2, h3⟩ := h
  simp only [Inv, join_room_state, Player.fresh]
  split_ifs <;> simp_all

lemma inv_setup (c n s : String) (r : Room) (h : Inv r) : Inv (set_player_setup c r n s).1 := by
  obtain ⟨h1, h2, h3⟩ := h
  simp only [Inv, set_player_setup]
  split_ifs <;> simp_all <;>
    (try cases hp2 : r.player2) <;> simp_all <;> split_ifs <;> simp_all

lemma inv_start (c now : String) (r : Room) (h : Inv r) : Inv (start_game c r now).1 := by
  obtain ⟨h1, h2, h3⟩ := h
  simp only [Inv, start_game]
  split_ifs <;> (try cases hp2 : r.player2) <;> simp_all <;> split_ifs <;> simp_all

lemma inv_set_caller (c : String) (r : Room) (q : Player)
    (h1 : r.player1.guesses.length ≤ 6)
    (h2 : ∀ p, r.player2 = some p → p.guesses.length ≤ 6)
    (hq : q.guesses.length ≤ 6) (hp2 : r.player2 ≠ none) :
    (set_caller c r q).player1.guesses.length ≤ 6 ∧
    (∀ p, (set_caller c r q).player2 = some p → p.guesses.length ≤ 6) ∧
    (set_caller c r q).player2 ≠ none := by
  unfold set_caller
  split_ifs <;> simp_all

lemma set_caller_game_state (c : String) (r : Room) (q : Player) :
    (set_caller c r q).game_state = r.game_state := by
  unfold set_caller
  split_ifs <;> rfl

lemma inv_guess (c g : String) (r : Room) (h : Inv r) : Inv (submit_guess c r g).1 := by
  obtain ⟨h1, h2, h3⟩ := h
  by_cases hst : r.game_state.status ≠ .playing
  · simp only [submit_guess, if_pos hst]
    exact ⟨h1, h2, h3⟩
  · have hpl : r.game_state.status = .playing := not_not.mp hst
    have hp2 : r.player2 ≠ none := by
      intro hn
      have hw := h3.mp hn
      rw [hw] at hpl
      simp at hpl
    rcases hc : caller_of c r with - | player <;>
      rcases ho : opponent_of c r with - | opponent <;>
      simp only [submit_guess, if_neg hst, hc, ho] <;>
      try exact ⟨h1, h2, h3⟩
    by_cases h6 : 6 ≤ player.guesses.length
    · simp only [if_pos h6]
      exact ⟨h1, h2, h3⟩
    · simp only [if_neg h6]
      by_cases hv : validate_secret g = false
      · simp only [if_pos hv]
        exact ⟨h1, h2, h3⟩
      · simp only [if_neg hv]
        rcases hsec : opponent.secret_number with - | sec
        · exact ⟨h1, h2, h3⟩
        · have hq : ∀ b : Bool, ({ player with
              guesses := player.guesses ++ [⟨g, validate_guess g sec⟩],
              has_won := b } : Player).guesses.length ≤ 6 := by
            intro b
            simp
            omega
          simp only []
          split_ifs with hwin hdraw
          · obtain ⟨a1, a2, a3⟩ := inv_set_caller c r _ h1 h2 (hq true) hp2
            refine ⟨a1, a2, ?_⟩
            simp_all
          · obtain ⟨a1, a2, a3⟩ := inv_set_caller c r _ h1 h2 (hq player.has_won) hp2
            refine ⟨a1, a2, ?_⟩
            simp_all
          · obtain ⟨a1, a2, a3⟩ := inv_set_caller c r _ h1 h2 (hq player.has_won) hp2
            refine ⟨a1, a2, ?_⟩
            simp_all [set_caller_game_state]

lemma inv_disc (c : String) (r : Room) (h : Inv r) : Inv (disconnect_room c r).1 := by
  obtain ⟨h1, h2, h3⟩ := h
  unfold disconnect_room
  by_cases hid1 : r.player1.id = c
  · simp only [if_pos hid1]
    by_cases hpl : r.game_state.status = .playing
    · simp only [if_pos hpl]
      rcases hp2 : r.player2 with - | p2
      · simp_all [Inv]
      · by_cases hcon : p2.connected <;> simp_all [Inv]
    · simp only [if_neg hpl]
      simp_all [Inv]
  · simp only [if_neg hid1]
    rcases hp2 : r.player2 with - | p2
    · simp_all [Inv]
    · by_cases hid2 : p2.id = c
      · simp only [if_pos hid2]
        by_cases hpl : r.game_state.status = .playing
        · by_cases hcon : r.player1.connected <;> simp_all [Inv]
        · simp_all [Inv]
      · simp_all [Inv, if_neg hid2]

lemma inv_redo (r : Room) (h : Inv r) :
    Inv (match rematch r with | .ok res => res.1 | .error r' => r') := by
  obtain ⟨h1, h2, h3⟩ := h
  unfold rematch
  rcases hp2 : r.player2 with - | p2 <;> simp_all [Inv]

lemma reachable_inv (r : Room) (h : Reachable r) : Inv r := by
  induction h with
  | created c i => exact inv_create c i
  | step a h ih =>
      cases a with
      | join c => exact inv_join c _ ih
      | set_setup c n s => exact inv_setup c n s _ ih
      | start c now => exact inv_start c now _ ih
      | guess c g => exact inv_guess c g _ ih
      | disc c => exact inv_disc c _ ih
      | redo => exact inv_redo _ ih

lemma statusRank_le_three (s : Status) : statusRank s ≤ 3 := by
  cases s <;> simp [statusRank]

lemma set_player_setup_game_state (c n s : String) (r : Room) :
    (set_player_setup c r n s).1.game_state = r.game_state := by
  unfold set_player_setup
  split_ifs <;> try rfl
  rcases r.player2 with - | p2 <;> simp <;> split_ifs <;> rfl

lemma start_game_status (c now : String) (r : Room) :
    (start_game c r now).1.game_state.status = r.game_state.status ∨
    (start_game c r now).1.game_state.status = .playing := by
  unfold start_game
  split_ifs <;> try simp
  rcases r.player2 with - | p2 <;> simp <;> split_ifs <;> simp

lemma submit_guess_status (c g : String) (r : Room) :
    (submit_guess c r g).1.game_state.status = r.game_state.status ∨
    (submit_guess c r g).1.game_state.status = .finished := by
  by_cases hst : r.game_state.status ≠ .playing
  · simp [submit_guess, if_pos hst]
  · rcases hc : caller_of c r with - | player <;>
      rcases ho : opponent_of c r with - | opponent <;>
      simp only [submit_guess, if_neg hst, hc, ho] <;>
      try simp
    by_cases h6 : 6 ≤ player.guesses.length
    · simp [if_pos h6]
    · simp only [if_neg h6]
      by_cases hv : validate_secret g = false
      · simp [if_pos hv]
      · simp only [if_neg hv]
        rcases hsec : opponent.secret_number with - | sec
        · simp
        · simp only []
          split_ifs <;> simp [set_caller_game_state]

lemma disconnect_room_status (c : String) (r : Room) :
    (disconnect_room c r).1.game_state.status = r.game_state.status ∨
    (disconnect_room c r).1.game_state.status = .finished := by
  unfold disconnect_room
  by_cases hid1 : r.player1.id = c
  · simp only [if_pos hid1]
    by_cases hpl : r.game_state.status = .playing
    · simp only [if_pos hpl]
      rcases r.player2 with - | p2
      · simp
      · by_cases hcon : p2.connected <;> simp_all
    · simp only [if_neg hpl]
      simp
  · simp only [if_neg hid1]
    rcases r.player2 with - | p2
    · simp
    · by_cases hid2 : p2.id = c
      · simp only [if_pos hid2]
        by_cases hpl : r.game_state.status = .playing
        · by_cases hcon : r.player1.connected <;> simp_all
        · simp_all
      · simp [if_neg hid2]

/-- Claim C2 (amended): every action keeps the status-rank from
decreasing, except `rematch`, which moves any room whose slot 2 is
occupied to `setup` regardless of its status (including `playing`),
and `start_game`, which moves any room passing its readiness guard to
`playing` (including a `finished` one).  On a reachable `waiting` room
rematch raises before touching the status, so it never moves a
`waiting` room to `setup`. -/
theorem C2_status_monotonic (r : Room) (hr : Reachable r) (a : Action) :
    (statusRank r.game_state.status ≤ statusRank (applyAction a r).game_state.status ∨
     (a.isRedo = true ∧ r.player2 ≠ none ∧ (applyAction a r).game_state.status = .setup) ∨
     (a.isStart = true ∧ (applyAction a r).game_state.status = .playing)) ∧
    (r.game_state.status = .waiting →
      (applyAction .redo r).game_state.status = .waiting) := by
  obtain ⟨h1, h2, h3⟩ := reachable_inv r hr
  have hredo : r.game_state.status = .waiting →
      (applyAction .redo r).game_state.status = .waiting := by
    intro hw
    have hp2 : r.player2 = none := h3.mpr hw
    simp [applyAction, rematch, hp2, hw]
  refine ⟨?_, hredo⟩
  cases a with
  | join c =>
      left
      simp only [applyAction, join_room_state]
      split_ifs with hsome hid
      · exact le_refl _
      · exact le_refl _
      · have hp2 : r.player2 = none := by
          cases hn : r.player2
          · rfl
          · simp [hn] at hsome
        rw [h3.mp hp2]
        simp [statusRank]
  | set_setup c n s =>
      left
      simp only [applyAction]
      rw [set_player_setup_game_state]
  | start c now =>
      rcases start_game_status c now r with h | h
      · left
        simp only [applyAction]
        rw [h]
      · right
        right
        exact ⟨rfl, h⟩
  | guess c g =>
      left
      simp only [applyAction]
      rcases submit_guess_status c g r with h | h
      · rw [h]
      · rw [h]
        exact statusRank_le_three _
  | disc c =>
      left
      simp only [applyAction]
      rcases disconnect_room_status c r with h | h
      · rw [h]
      · rw [h]
        exact statusRank_le_three _
  | redo =>
      rcases hp2 : r.player2 with - | p2
      · left
        simp [applyAction, rematch, hp2]
      · right
        left
        refine ⟨rfl, by simp [hp2], ?_⟩
        simp [applyAction, rematch, hp2]

/-- Claim C2 counterexample: rematch moves a reachable `playing` room
to `setup`. -/
theorem C2_counterexample :
    Reachable roomC2 ∧ roomC2.game_state.status = .playing ∧
    roomC2.player2 ≠ none ∧
    (applyAction .redo roomC2).game_state.status = .setup :=
  ⟨.step _ (.step _ (.step _ (.step _ (.created "A" "R")))), by decide, by decide, by decide⟩

/-- Witness for C2 at the freshly created room and a join action. -/
theorem C2_status_monotonic_witness :
    (statusRank (create_room "A" "R").game_state.status ≤
        statusRank (applyAction (.join "B") (create_room "A" "R")).game_state.status ∨
      ((Action.join "B").isRedo = true ∧ (create_room "A" "R").player2 ≠ none ∧
        (applyAction (.join "B") (create_room "A" "R")).game_state.status = .setup) ∨
      ((Action.join "B").isStart = true ∧
        (applyAction (.join "B") (create_room "A" "R")).game_state.status = .playing)) ∧
    ((create_room "A" "R").game_state.status = .waiting →
      (applyAction .redo (create_room "A" "R")).game_state.status = .waiting) :=
  C2_status_monotonic (create_room "A" "R") (.created "A" "R") (.join "B")

/-- Claim C5: in every reachable room each guess history has at most 6
entries, and a `submit_guess` whose resolved caller already has 6
guesses is a no-op returning the room unchanged with no deliveries. -/
theorem C5_guess_limit (r : Room) (hr : Reachable r) :
    r.player1.guesses.length ≤ 6 ∧
    (∀ p, r.player2 = some p → p.guesses.length ≤ 6) ∧
    (∀ c g p, caller_of c r = some p → 6 ≤ p.guesses.length →
      submit_guess c r g = (r, [])) := by
  obtain ⟨h1, h2, h3⟩ := reachable_inv r hr
  refine ⟨h1, h2, ?_⟩
  intro c g p hc h6
  by_cases hst : r.game_state.status ≠ .playing
  · simp [submit_guess, if_pos hst]
  · rcases ho : opponent_of c r with - | opponent <;>
      simp only [submit_guess, if_neg hst, hc, ho] <;>
      simp [h6]

/-- Witness for C5 at the freshly created room. -/
theorem C5_guess_limit_witness :
    (create_room "A" "R").player1.guesses.length ≤ 6 :=
  (C5_guess_limit (create_room "A" "R") (.created "A" "R")).1

/-- Claim C3 prototype. -/
theorem C3_disconnect_forfeit (r : Room) (c : String)
    (hocc : r.player1.id = c ∨ ∃ p2, r.player2 = some p2 ∧ p2.id = c) :
    (∀ opp, r.game_state.status = .playing → disc_opponent c r = some opp →
      opp.connected = true →
      (disconnect_room c r).1.game_state.status = .finished ∧
      (disconnect_room c r).1.game_state.winner_id = some opp.id ∧
      ∃ m, (disconnect_room c r).2 =
        [.broadcast (.game_over (some opp.id) none (some "opponent_disconnected") (some m)
          r.player1.secret_number (p2_secret r))]) ∧
    (r.game_state.status ≠ .playing →
      (disconnect_room c r).2 = [.broadcast (.player_disconnected c)] ∧
      (disconnect_room c r).1.game_state.status = r.game_state.status ∧
      (disconnect_room c r).1.game_state.winner_id = r.game_state.winner_id) ∧
    (r.game_state.status = .playing →
      (∀ opp, disc_opponent c r = some opp → opp.connected = false) →
      (disconnect_room c r).2 = [] ∧
      (disconnect_room c r).1.game_state = r.game_state) := by
  by_cases hid1 : r.player1.id = c
  · refine ⟨?_, ?_, ?_⟩
    · intro opp hpl hopp hcon
      rcases hp2 : r.player2 with - | p2
      · simp [disc_opponent, hid1, hp2] at hopp
      · simp only [disc_opponent, if_pos hid1, hp2] at hopp
        cases hopp
        simp [disconnect_room, hid1, hpl, hp2, hcon, p2_secret]
    · intro hnpl
      simp [disconnect_room, hid1, hnpl]
    · intro hpl hdis
      rcases hp2 : r.player2 with - | p2
      · simp [disconnect_room, hid1, hpl, hp2]
      · have := hdis p2 (by simp [disc_opponent, hid1, hp2])
        simp [disconnect_room, hid1, hpl, hp2, this]
  · obtain h | ⟨p2, hp2, hid2⟩ := hocc
    · exact absurd h hid1
    refine ⟨?_, ?_, ?_⟩
    · intro opp hpl hopp hcon
      simp only [disc_opponent, if_neg hid1] at hopp
      cases hopp
      simp [disconnect_room, hid1, hpl, hp2, hid2, hcon, p2_secret]
    · intro hnpl
      simp [disconnect_room, hid1, hnpl, hp2, hid2]
    · intro hpl hdis
      have := hdis r.player1 (by simp [disc_opponent, hid1])
      simp [disconnect_room, hid1, hpl, hp2, hid2, this]

/-- Claim C4 prototype. -/
theorem C4_submit_guess_resolution (r : Room) (c g s : String) (p o : Player)
    (hst : r.game_state.status = .playing)
    (hocc : r.player1.id = c ∨ ∃ p2, r.player2 = some p2 ∧ p2.id = c)
    (hc : caller_of c r = some p) (ho : opponent_of c r = some o)
    (h6 : p.guesses.length < 6)
    (hv : validate_secret g = true)
    (hsec : o.secret_number = some s) :
    (g = s →
      (submit_guess c r g).1.game_state.status = .finished ∧
      (submit_guess c r g).1.game_state.winner_id = some c ∧
      caller_of c (submit_guess c r g).1 =
        some { p with guesses := p.guesses ++ [⟨g, validate_guess g s⟩], has_won := true } ∧
      (submit_guess c r g).2 =
        [.broadcast (.guess_made c g (validate_guess g s) (p.guesses.length + 1)),
         .broadcast (.game_over (some c) p.name none none
           r.player1.secret_number (p2_secret r))]) ∧
    (g ≠ s → ¬(6 ≤ p.guesses.length + 1 ∧ 6 ≤ o.guesses.length ∧ o.has_won = false) →
      (submit_guess c r g).1.game_state.status = .playing ∧
      (submit_guess c r g).2 =
        [.broadcast (.guess_made c g (validate_guess g s) (p.guesses.length + 1))]) := by
  have hn6 : ¬ 6 ≤ p.guesses.length := by omega
  by_cases hid1 : r.player1.id = c
  · have hp1 : r.player1 = p := by
      simpa [caller_of, hid1] using hc
    have hp2o : r.player2 = some o := by
      simpa [opponent_of, hid1] using ho
    have hpid : p.id = c := by
      rw [← hp1]
      exact hid1
    constructor
    · intro hwin
      subst hwin
      simp [submit_guess, hst, hc, ho, hn6, hv, hsec, set_caller, caller_of, hid1,
        p2_secret, hp2o, hp1, hpid]
    · intro hne hnodraw
      have harr : ¬(5 ≤ p.guesses.length ∧
          6 ≤ o.guesses.length ∧ o.has_won = false) := by
        intro hand
        exact hnodraw ⟨by omega, hand.2⟩
      simp [submit_guess, hst, hc, ho, hn6, hv, hsec, hne, harr, set_caller, hid1, hst]
  · obtain h | ⟨p2, hp2, hid2⟩ := hocc
    · exact absurd h hid1
    · have hpp : p2 = p := by
        simpa [caller_of, hid1, hp2] using hc
      have hoo : r.player1 = o := by
        simpa [opponent_of, hid1] using ho
      have hoid : ¬ o.id = c := by
        rw [← hoo]
        exact hid1
      subst hpp
      constructor
      · intro hwin
        subst hwin
        simp [submit_guess, hst, hc, ho, hn6, hv, hsec, set_caller, caller_of, hid1,
          p2_secret, hp2, hoo, hoid]
      · intro hne hnodraw
        have harr : ¬(5 ≤ p2.guesses.length ∧
            6 ≤ o.guesses.length ∧ o.has_won = false) := by
          intro hand
          exact hnodraw ⟨by omega, hand.2⟩
        simp [submit_guess, hst, hc, ho, hn6, hv, hsec, hne, harr, set_caller, hid1, hoid,
          hst]

/-- Claim C6 prototype. -/
theorem C6_draw_by_exhaustion (r : Room) (c g s : String) (p o : Player)
    (hst : r.game_state.status = .playing)
    (hw : r.game_state.winner_id = none)
    (hc : caller_of c r = some p) (ho : opponent_of c r = some o)
    (h5 : p.guesses.length = 5) (h66 : 6 ≤ o.guesses.length)
    (hnw : o.has_won = false)
    (hv : validate_secret g = true) (hsec : o.secret_number = some s)
    (hne : g ≠ s) :
    (submit_guess c r g).1.game_state.status = .finished ∧
    (submit_guess c r g).1.game_state.winner_id = none ∧
    (submit_guess c r g).2 =
      [.broadcast (.guess_made c g (validate_guess g s) 6),
       .broadcast (.game_over none none none none
         r.player1.secret_number (p2_secret r))] := by
  have hn6 : ¬ 6 ≤ p.guesses.length := by omega
  have hdraw : 5 ≤ p.guesses.length ∧ 6 ≤ o.guesses.length ∧ o.has_won = false :=
    ⟨by omega, h66, hnw⟩
  by_cases hid1 : r.player1.id = c
  · have hp2o : r.player2 = some o := by
      simpa [opponent_of, hid1] using ho
    have hp1 : r.player1 = p := by
      simpa [caller_of, hid1] using hc
    have hpid : p.id = c := by
      rw [← hp1]
      exact hid1
    simp [submit_guess, hst, hc, ho, hn6, hv, hsec, hne, hdraw, set_caller, hid1,
      p2_secret, hp2o, hw, h5, hp1, hpid]
  · have hoo : r.player1 = o := by
      simpa [opponent_of, hid1] using ho
    have hoid : ¬ o.id = c := by
      rw [← hoo]
      exact hid1
    have hp2c : r.player2 = some p := by
      rcases hn : r.player2 with - | q
      · simp [caller_of, hid1, hn] at hc
      · simpa [caller_of, hid1, hn] using hc
    simp [submit_guess, hst, hc, ho, hn6, hv, hsec, hne, hdraw, set_caller, hid1,
      p2_secret, hp2c, hw, h5, hoo, hoid]

/-- Claim C10 prototype. -/
theorem C10_no_slot_membership_check (r : Room) (c g s : String) (p2 : Player)
    (hst : r.game_state.status = .playing)
    (hid1 : r.player1.id ≠ c)
    (hp2 : r.player2 = some p2) (hid2 : p2.id ≠ c)
    (h6 : p2.guesses.length < 6)
    (hv : validate_secret g = true)
    (hsec : r.player1.secret_number = some s) :
    (submit_guess c r g).1.player1 = r.player1 ∧
    (g = s →
      (submit_guess c r g).1.player2 =
        some ({ p2 with
                guesses := p2.guesses ++ [⟨g, validate_guess g s⟩],
                has_won := true }) ∧
      (submit_guess c r g).1.game_state.status = .finished ∧
      (submit_guess c r g).1.game_state.winner_id = some c) ∧
    (g ≠ s →
      (submit_guess c r g).1.player2 =
        some ({ p2 with
                guesses := p2.guesses ++ [⟨g, validate_guess g s⟩] })) := by
  have hn6 : ¬ 6 ≤ p2.guesses.length := by omega
  have hc : caller_of c r = some p2 := by
    simp [caller_of, hid1, hp2]
  have ho : opponent_of c r = some r.player1 := by
    simp [opponent_of, hid1]
  by_cases hwin : g = s
  · subst hwin
    refine ⟨?_, ?_, ?_⟩ <;>
      simp [submit_guess, hst, hc, ho, hn6, hv, hsec, set_caller, hid1, hp2]
  · by_cases hdraw : 5 ≤ p2.guesses.length ∧ 6 ≤ r.player1.guesses.length ∧
        r.player1.has_won = false <;>
      refine ⟨?_, ?_, ?_⟩ <;>
      simp [submit_guess, hst, hc, ho, hn6, hv, hsec, set_caller, hid1, hp2,
        hwin, hdraw]

/-- Claim C7 amended prototype. -/
theorem C7_join_room_cases (c : String) (room? : Option Room) :
    (room? = none →
      websocket_join_room c room? =
        (none, [.personal c (.error "Room full or invalid")])) ∧
    (∀ r, room? = some r → r.player2 ≠ none →
      websocket_join_room c room? =
        (some r, [.personal c (.error "Room full or invalid")])) ∧
    (∀ r, room? = some r → r.player2 = none → r.player1.id = c →
      websocket_join_room c room? = (some r, [.personal c (.joined_room r.id)])) ∧
    (∀ r, room? = some r → r.player2 = none → r.player1.id ≠ c →
      websocket_join_room c room? =
        (some { r with
                player2 := some (Player.fresh c false)
                game_state := { r.game_state with status := .setup } },
         [.broadcast (.player_joined r.id), .personal c (.joined_room r.id)])) := by
  refine ⟨?_, ?_, ?_, ?_⟩
  · intro h
    simp [websocket_join_room, join_room, h]
  · intro r hr hp2
    subst hr
    rcases hp : r.player2 with - | p2
    · exact absurd hp hp2
    · simp [websocket_join_room, join_room, join_room_state, hp]
  · intro r hr hp2 hid
    subst hr
    simp [websocket_join_room, join_room, join_room_state, hp2, hid]
  · intro r hr hp2 hid
    subst hr
    simp [websocket_join_room, join_room, join_room_state, hp2, hid]

/-- Claim C8 amended prototype. -/
theorem C8_rematch_reset (r : Room) :
    (∀ p2, r.player2 = some p2 →
      rematch r = .ok
        ({ r with
           player1 :=
             { r.player1 with
               secret_number := none, guesses := [], is_ready := false, has_won := false }
           player2 :=
             some ({ p2 with
                     secret_number := none, guesses := [], is_ready := false,
                     has_won := false })
           game_state :=
             { r.game_state with
               status := .setup, winner_id := none, start_time := none } },
         [.broadcast .rematch_started])) ∧
    (r.player2 = none →
      rematch r = .error
        { r with
          player1 :=
            { r.player1 with
              secret_number := none, guesses := [], is_ready := false,
              has_won := false } }) := by
  constructor
  · intro p2 hp2
    simp [rematch, hp2]
  · intro hp2
    simp [rematch, hp2]

/-- Claim C9 prototype. -/
theorem C9_setup_validation (r : Room) (c name secret : String) :
    (validate_secret secret = false →
      set_player_setup c r name secret =
        (r, [.personal c (.error "Invalid secret number")])) ∧
    (validate_secret secret = true → name.toList.all Char.isWhitespace = true →
      set_player_setup c r name secret =
        (r, [.personal c (.error "Name is required")])) ∧
    (validate_secret secret = true → name.toList.all Char.isWhitespace = false →
      (r.player1.id = c →
        (set_player_setup c r name secret).1 =
          { r with
            player1 :=
              { r.player1 with
                name := some name, secret_number := some secret, is_ready := true } } ∧
        (set_player_setup c r name secret).2 = [.broadcast (.player_ready c name)]) ∧
      (r.player1.id ≠ c → ∀ p2, r.player2 = some p2 → p2.id = c →
        (set_player_setup c r name secret).1 =
          { r with
            player2 :=
              some ({ p2 with
                      name := some name, secret_number := some secret,
                      is_ready := true }) } ∧
        (set_player_setup c r name secret).2 = [.broadcast (.player_ready c name)])) := by
  refine ⟨?_, ?_, ?_⟩
  · intro h
    simp [set_player_setup, h]
  · intro hv hws
    simp only [set_player_setup]
    rw [if_neg (by simp [hv]), if_pos hws]
  · intro hv hws
    have hnws : ¬ (name.toList.all Char.isWhitespace = true) := by
      rw [hws]
      simp
    constructor
    · intro hid
      simp only [set_player_setup]
      rw [if_neg (by simp [hv]), if_neg hnws]
      simp [hid]
    · intro hid p2 hp2 hid2
      simp only [set_player_setup]
      rw [if_neg (by simp [hv]), if_neg hnws]
      simp [hid, hp2, hid2]

/-- Witness for C3: the host disconnecting from a playing room with a
connected opponent forfeits to the opponent. -/
theorem C3_disconnect_forfeit_witness :
    (disconnect_room "A" roomC3).1.game_state.status = .finished :=
  (((C3_disconnect_forfeit roomC3 "A" (Or.inl rfl)).1 _ rfl rfl rfl)).1

/-- Witness for C4: guessing the opponent's secret finishes the round. -/
theorem C4_submit_guess_resolution_witness :
    (submit_guess "A" roomC4 "5678").1.game_state.status = .finished :=
  ((C4_submit_guess_resolution roomC4 "A" "5678" "5678"
      { id := "A", name := some "Alice", secret_number := some "1234" }
      { id := "B", name := some "Bob", secret_number := some "5678" }
      rfl (Or.inl rfl) rfl rfl (by decide) (by decide) rfl).1 rfl).1

/-- Witness for C6: the caller's sixth non-winning guess against an
exhausted opponent ends the round in a draw. -/
theorem C6_draw_by_exhaustion_witness :
    (submit_guess "A" roomC6 "4321").1.game_state.status = .finished ∧
    (submit_guess "A" roomC6 "4321").1.game_state.winner_id = none :=
  ⟨(C6_draw_by_exhaustion roomC6 "A" "4321" "5678"
      { id := "A", secret_number := some "1234",
        guesses := List.replicate 5 ⟨"0000", []⟩ }
      { id := "B", secret_number := some "5678",
        guesses := List.replicate 6 ⟨"0000", []⟩ }
      rfl rfl rfl rfl (by decide) (by decide) rfl (by decide) rfl (by decide)).1,
   (C6_draw_by_exhaustion roomC6 "A" "4321" "5678"
      { id := "A", secret_number := some "1234",
        guesses := List.replicate 5 ⟨"0000", []⟩ }
      { id := "B", secret_number := some "5678",
        guesses := List.replicate 6 ⟨"0000", []⟩ }
      rfl rfl rfl rfl (by decide) (by decide) rfl (by decide) rfl (by decide)).2.1⟩

/-- Counterexample for C7 as stated: the host re-joining their own
room is reported as a success (`joined_room`), not an `error`, while
leaving the room unchanged. -/
theorem C7_counterexample :
    websocket_join_room "HOST" (some roomC7) =
      (some roomC7, [.personal "HOST" (.joined_room "R7")]) ∧
    Msg.personal "HOST" (Event.error "Room full or invalid") ∉
      (websocket_join_room "HOST" (some roomC7)).2 := by
  constructor
  · rfl
  · decide

/-- Witness for C7 (amended): a stranger joining a waiting room
occupies slot 2, moves the room to setup and broadcasts. -/
theorem C7_join_room_cases_witness :
    websocket_join_room "B" (some roomC7) =
      (some { roomC7 with
              player2 := some (Player.fresh "B" false)
              game_state := { roomC7.game_state with status := .setup } },
       [.broadcast (.player_joined "R7"), .personal "B" (.joined_room "R7")]) :=
  (C7_join_room_cases "B" (some roomC7)).2.2.2 roomC7 rfl rfl (by decide)

/-- Witness for C8 (amended): rematch on a two-player room resets both
players and re-enters setup. -/
theorem C8_rematch_reset_witness :
    rematch roomC8 = .ok (roomC8reset, [.broadcast .rematch_started]) :=
  (C8_rematch_reset roomC8).1 _ rfl

/-- Counterexample for C8 as stated: rematch on a waiting room whose
slot 2 is empty raises (embedded as `Except.error`) instead of
completing, leaving the partially reset in-memory room behind. -/
theorem C8_counterexample :
    rematch (create_room "HOST" "R0") = .error (create_room "HOST" "R0") := rfl

/-- Witness for C9: the repeated-digit secret `"1122"` is rejected
with an error to the caller only and the room is unchanged. -/
theorem C9_setup_validation_witness :
    set_player_setup "A" roomC9 "Alice" "1122" =
      (roomC9, [.personal "A" (.error "Invalid secret number")]) :=
  (C9_setup_validation roomC9 "A" "Alice" "1122").1 (by decide)

/-- Witness for C10: a guess from the stranger `"Z"` equal to slot 1's
secret is credited to slot 2, which wins the round. -/
theorem C10_no_slot_membership_check_witness :
    (submit_guess "Z" roomC10 "1234").1.player2 =
      some ({ id := "B", secret_number := some "5678",
              guesses := [⟨"1234", validate_guess "1234" "1234"⟩],
              has_won := true } : Player) :=
  ((C10_no_slot_membership_check roomC10 "Z" "1234" "1234"
      { id := "B", secret_number := some "5678" }
      rfl (by decide) rfl (by decide) (by decide) (by decide) rfl).2.1 rfl).1

end Numble
